import Mathlib

/-!
Verification of the BioFaceIdentificationSystem core pipeline.

This file gives a shallow embedding, in Lean, of the matching, quality-gating,
caching, enrollment and identification logic of the repository
(src/core/face_recognizer.py, src/core/quality_validator.py,
src/core/identification.py, src/core/registration.py) and proves the
specified properties about it.

Modelling conventions:
* Python floats are modelled as rationals (ℚ); the IEEE value `float('inf')`
  produced by the distance routine is modelled as `⊤` in `WithTop ℚ`.
* Purely numeric kernels delegated to external native libraries
  (`np.linalg.norm`, the OpenCV Laplacian / LAB statistics, `np.arctan2`, the
  dlib detector, the face_recognition encoder) are treated as given data:
  either as an explicit function parameter (`Norm`) or as fields of the input
  records (`Image`, `Frame`, `Landmarks`) holding the values those routines
  would return for that input.  All control flow, comparisons and arithmetic
  performed by the repository's own Python code is embedded directly.
* Database sessions are modelled by explicit state passing; wall-clock
  timestamps by a rational "seconds" parameter.
-/

namespace BioFace

/-- A face descriptor: the repository stores 128-dimensional float vectors,
modelled as rational lists of arbitrary length (the code only ever inspects
the shape and feeds the data to numeric kernels). -/
abbrev Descriptor := List ℚ

/-- The numeric Euclidean-norm kernel `np.linalg.norm(desc1 - desc2)`: an
external library routine, so the embedding is parametric in it.  Every
theorem below therefore holds for the actual floating-point norm as well. -/
abbrev Norm := Descriptor → Descriptor → ℚ

/-- A concrete computable instance of `Norm` (sum of squared differences),
used to evaluate the definitions on concrete inputs. -/
def normSq (a b : Descriptor) : ℚ :=
  ((a.zip b).map fun p => (p.1 - p.2) * (p.1 - p.2)).sum

/-! ### FaceRecognizer (src/core/face_recognizer.py) -/

/-- Embeds `FaceRecognizer.calculate_distance`: if the two descriptors have different
shapes the code logs and returns `float('inf')` (here `⊤`); otherwise it
returns the Euclidean norm of their difference.  The `except` branch of the
source can only be reached through a numpy fault, which the pure kernel
parameter cannot raise. -/
def calculate_distance (norm : Norm) (desc1 desc2 : Descriptor) : WithTop ℚ :=
  if desc1.length = desc2.length then (norm desc1 desc2 : WithTop ℚ) else ⊤

/-- Embeds `FaceRecognizer.verify`: 1:1 comparison, `is_match = distance <= threshold`. -/
def verify (norm : Norm) (threshold : ℚ) (descriptor1 descriptor2 : Descriptor) :
    Bool × WithTop ℚ :=
  let distance := calculate_distance norm descriptor1 descriptor2
  (decide (distance ≤ (threshold : WithTop ℚ)), distance)

/-- The scan loop inside `FaceRecognizer.identify`: walks the database keeping
`(best_match, best_distance)`, updating on a strictly smaller distance. -/
def identify_scan (norm : Norm) (probe : Descriptor) :
    List (ℤ × Descriptor) → Option ℤ × WithTop ℚ → Option ℤ × WithTop ℚ
  | [], best => best
  | entry :: rest, best =>
    let distance := calculate_distance norm probe entry.2
    if distance < best.2 then identify_scan norm probe rest (some entry.1, distance)
    else identify_scan norm probe rest best

/-- Embeds `FaceRecognizer.identify`: 1:N comparison.  Empty database returns `none`;
otherwise the best (lowest-distance) entry is returned iff its distance is
within the threshold.  The initial accumulator is `(None, float('inf'))`. -/
def identify (norm : Norm) (threshold : ℚ) (probe : Descriptor)
    (database : List (ℤ × Descriptor)) : Option (Option ℤ × WithTop ℚ) :=
  if database = [] then none
  else
    let best := identify_scan norm probe database (none, ⊤)
    if best.2 ≤ (threshold : WithTop ℚ) then some best else none

/-! ### Specification-side definitions for the identify claim

These follow the spec's words ("globally minimal distance", "first entry
encountered wins", "iff that minimum ≤ threshold") and are compared with the
source-derived `identify` above. -/

/-- The globally minimal distance from the probe to any snapshot entry
(`⊤` for the empty snapshot). -/
def minimalDistance (norm : Norm) (probe : Descriptor) :
    List (ℤ × Descriptor) → WithTop ℚ
  | [] => ⊤
  | entry :: rest =>
    min (calculate_distance norm probe entry.2) (minimalDistance norm probe rest)

/-- The id of the first entry, in snapshot order, whose distance to the probe
equals `m`. -/
def firstAtMin (norm : Norm) (probe : Descriptor) (m : WithTop ℚ) :
    List (ℤ × Descriptor) → Option ℤ
  | [] => none
  | entry :: rest =>
    if calculate_distance norm probe entry.2 = m then some entry.1
    else firstAtMin norm probe m rest

/-- Spec-side identify, as the claim states it: none on an empty snapshot; otherwise
the first entry attaining the globally minimal distance, together with that
distance, iff the minimum is within the threshold. -/
def identifySpec (norm : Norm) (threshold : ℚ) (probe : Descriptor)
    (database : List (ℤ × Descriptor)) : Option (Option ℤ × WithTop ℚ) :=
  if database = [] then none
  else
    let m := minimalDistance norm probe database
    if m ≤ (threshold : WithTop ℚ) then some (firstAtMin norm probe m database, m)
    else none

/-- Characterization of the scan loop: starting from `(bm, bd)` it yields the
first entry strictly improving on `bd` and attaining the list minimum, or the
unchanged accumulator when no entry improves on `bd`. -/
lemma identify_scan_eq (norm : Norm) (probe : Descriptor) :
    ∀ (db : List (ℤ × Descriptor)) (bm : Option ℤ) (bd : WithTop ℚ),
      identify_scan norm probe db (bm, bd) =
        if minimalDistance norm probe db < bd then
          (firstAtMin norm probe (minimalDistance norm probe db) db,
            minimalDistance norm probe db)
        else (bm, bd) := by
  intro db
  induction db with
  | nil =>
    intro bm bd
    simp [identify_scan, minimalDistance]
  | cons entry rest ih =>
    intro bm bd
    rw [identify_scan]
    by_cases hdb : calculate_distance norm probe entry.2 < bd
    · rw [if_pos hdb, ih]
      by_cases hmd : minimalDistance norm probe rest < calculate_distance norm probe entry.2
      · rw [if_pos hmd]
        have hmin : minimalDistance norm probe (entry :: rest) =
            minimalDistance norm probe rest := by
          rw [minimalDistance, min_eq_right hmd.le]
        have hlt : minimalDistance norm probe (entry :: rest) < bd := by
          rw [hmin]; exact hmd.trans hdb
        rw [if_pos hlt, hmin, firstAtMin,
          if_neg (by exact fun h => hmd.ne h.symm)]
      · push_neg at hmd
        rw [if_neg (by exact fun h => absurd h (not_lt.mpr hmd))]
        have hmin : minimalDistance norm probe (entry :: rest) =
            calculate_distance norm probe entry.2 := by
          rw [minimalDistance, min_eq_left hmd]
        rw [if_pos (by rw [hmin]; exact hdb), hmin, firstAtMin, if_pos rfl]
    · push_neg at hdb
      rw [if_neg (not_lt.mpr hdb), ih]
      by_cases hmb : minimalDistance norm probe rest < bd
      · rw [if_pos hmb]
        have hlt : minimalDistance norm probe rest <
            calculate_distance norm probe entry.2 := lt_of_lt_of_le hmb hdb
        have hmin : minimalDistance norm probe (entry :: rest) =
            minimalDistance norm probe rest := by
          rw [minimalDistance, min_eq_right hlt.le]
        rw [if_pos (by rw [hmin]; exact hmb), hmin, firstAtMin,
          if_neg (by exact fun h => hlt.ne h.symm)]
      · push_neg at hmb
        have hge : bd ≤ minimalDistance norm probe (entry :: rest) := by
          rw [minimalDistance, le_min_iff]; exact ⟨hdb, hmb⟩
        rw [if_neg (not_lt.mpr hmb), if_neg (not_lt.mpr hge)]

/-- Claim C1: For every probe descriptor and every snapshot: `identify` agrees
with the spec-side description — none on an empty snapshot, otherwise the
globally minimal-distance entry (first encountered on ties, in snapshot
order) iff that minimal distance is within the threshold, else none. -/
theorem identify_eq_identifySpec (norm : Norm) (threshold : ℚ)
    (probe : Descriptor) (database : List (ℤ × Descriptor)) :
    identify norm threshold probe database =
      identifySpec norm threshold probe database := by
  by_cases hdb : database = []
  · simp [identify, identifySpec, hdb]
  · rcases lt_or_ge (minimalDistance norm probe database) ⊤ with hm | hm
    · simp [identify, identifySpec, hdb, identify_scan_eq, hm]
    · have htop : minimalDistance norm probe database = ⊤ := top_le_iff.mp hm
      simp [identify, identifySpec, hdb, identify_scan_eq, htop]

/-- Claim C8: For every pair of descriptors whose lengths differ,
`calculate_distance` returns `+infinity` (it is a total function: the
embedding returns a value on all inputs and has no failure case). -/
theorem calculate_distance_mismatch (norm : Norm) (desc1 desc2 : Descriptor)
    (h : desc1.length ≠ desc2.length) :
    calculate_distance norm desc1 desc2 = ⊤ := by
  unfold calculate_distance
  rw [if_neg h]

/-- Witness for C8 on a concrete shape mismatch. -/
theorem calculate_distance_mismatch_w :
    ([(0 : ℚ)].length ≠ [(0 : ℚ), 0].length) ∧
      calculate_distance normSq [(0 : ℚ)] [(0 : ℚ), 0] = ⊤ :=
  ⟨by decide, calculate_distance_mismatch normSq [(0 : ℚ)] [(0 : ℚ), 0] (by decide)⟩

/-- Claim C9: `verify` returns `is_match = true` exactly when the distance is
at most the threshold, and in particular when the distance equals the
threshold (inclusive boundary). -/
theorem verify_inclusive (norm : Norm) (threshold : ℚ)
    (descriptor1 descriptor2 : Descriptor) :
    ((verify norm threshold descriptor1 descriptor2).1 = true ↔
        calculate_distance norm descriptor1 descriptor2 ≤ (threshold : WithTop ℚ)) ∧
      (calculate_distance norm descriptor1 descriptor2 = (threshold : WithTop ℚ) →
        (verify norm threshold descriptor1 descriptor2).1 = true) := by
  constructor
  · simp [verify]
  · intro h
    simp [verify, h]

/-- Witness for C9 at a concrete boundary input: distance exactly equal to
the threshold is a match. -/
theorem verify_inclusive_w :
    (verify normSq 0 ([] : Descriptor) ([] : Descriptor)).1 = true :=
  (verify_inclusive normSq 0 [] []).2 (by decide)

/-! ### Match confidence (src/core/identification.py, lines 180-181 / 303-304) -/

/-- The confidence computed for a successful match:
`confidence = 1.0 - (distance / threshold)` followed by
`confidence = max(0.0, min(1.0, confidence))`. -/
def matchConfidence (distance threshold : ℚ) : ℚ :=
  max 0 (min 1 (1 - distance / threshold))

/-- The clamp function, written from the spec's words: `clamp(x, lo, hi)` restricts `x`
to the interval `[lo, hi]`. -/
def clamp (lo hi x : ℚ) : ℚ := max lo (min hi x)

/-- The confidence of a match whose distance may be the infinite
shape-mismatch value: in the source `1.0 - inf/threshold` is `-inf`, which
the clamp maps to `0`. -/
def matchConfidenceTop (distance : WithTop ℚ) (threshold : ℚ) : ℚ :=
  WithTop.recTopCoe 0 (fun d => matchConfidence d threshold) distance

/-- Claim C2: For every successful match (distance nonnegative, positive
threshold): the computed confidence equals `clamp(1 - distance/threshold, 0, 1)`,
always lies in `[0, 1]`, is exactly `1` at distance `0`, and exactly `0` at any
distance at or beyond the threshold. -/
theorem confidence_clamped (distance threshold : ℚ)
    (hd : 0 ≤ distance) (ht : 0 < threshold) :
    matchConfidence distance threshold = clamp 0 1 (1 - distance / threshold) ∧
      0 ≤ matchConfidence distance threshold ∧
      matchConfidence distance threshold ≤ 1 ∧
      (distance = 0 → matchConfidence distance threshold = 1) ∧
      (threshold ≤ distance → matchConfidence distance threshold = 0) := by
  refine ⟨rfl, le_max_left _ _, ?_, ?_, ?_⟩
  · exact max_le (by norm_num) (min_le_left _ _)
  · intro h0
    simp [matchConfidence, h0]
  · intro hts
    have h1 : (1 : ℚ) ≤ distance / threshold := (one_le_div ht).mpr hts
    have h2 : 1 - distance / threshold ≤ 0 := by linarith
    unfold matchConfidence
    rw [min_eq_right (by linarith), max_eq_left h2]

/-- Witness for C2 at concrete inputs: distance `2` with threshold `1` gives
confidence `0`; distance `0` with threshold `1` gives confidence `1`. -/
theorem confidence_clamped_w :
    matchConfidence 2 1 = 0 ∧ matchConfidence 0 1 = 1 :=
  ⟨(confidence_clamped 2 1 (by norm_num) (by norm_num)).2.2.2.2 (by norm_num),
    (confidence_clamped 0 1 le_rfl (by norm_num)).2.2.2.1 rfl⟩

/-! ### QualityValidator (src/core/quality_validator.py) -/

/-- A face image, represented by the statistics the OpenCV kernels compute
from it in `validate_sharpness` and `validate_lighting`: the variance of the
grayscale Laplacian, and the mean and standard deviation of the LAB
L-channel.  The pixel arrays themselves are never inspected by the
repository's own logic. -/
structure Image where
  lapVariance : ℚ
  meanBrightness : ℚ
  contrast : ℚ
deriving DecidableEq

/-- A landmark set, represented by the data `FaceDetector.get_face_angle`
extracts from it: the number of points and the eye-line angle in degrees
(the `np.degrees(np.arctan2(dy, dx))` value, an external numeric result). -/
structure Landmarks where
  count : ℕ
  eyeAngle : ℚ
deriving DecidableEq

/-- Embeds `FaceDetector.get_face_angle`: returns `0.0` for fewer than 68 landmark
points, otherwise the in-plane eye-line rotation angle. -/
def get_face_angle (landmarks : Landmarks) : ℚ :=
  if landmarks.count < 68 then 0 else landmarks.eyeAngle

/-- Embeds `FaceLocation` (src/core/face_detector.py): a bounding box given by its
four integer edges. -/
structure FaceLocation where
  top : ℤ
  right : ℤ
  bottom : ℤ
  left : ℤ
deriving DecidableEq

/-- Embeds `FaceLocation.width`. -/
def FaceLocation.width (f : FaceLocation) : ℤ := f.right - f.left

/-- Embeds `FaceLocation.height`. -/
def FaceLocation.height (f : FaceLocation) : ℤ := f.bottom - f.top

/-- Configuration fields of `QualityValidator`. -/
structure QualityValidator where
  sharpness_threshold : ℚ
  angle_threshold : ℚ
  min_face_size : ℤ
deriving DecidableEq

/-- The default configuration (config.py: `SHARPNESS_THRESHOLD = 100`,
`FACE_ANGLE_THRESHOLD = 30`, `min_face_size = 100`). -/
def defaultValidator : QualityValidator :=
  { sharpness_threshold := 100, angle_threshold := 30, min_face_size := 100 }

/-- Embeds `QualityReport` with the field defaults set by its `__init__`. -/
structure QualityReport where
  is_valid : Bool := false
  sharpness_score : ℚ := 0
  lighting_score : ℚ := 0
  angle : ℚ := 0
  angle_valid : Bool := false
  face_size_valid : Bool := false
  issues : List String := []
deriving DecidableEq

/-- Embeds `QualityValidator.validate_sharpness`: valid iff the Laplacian variance
is at least the sharpness threshold; the score is the variance itself. -/
def validate_sharpness (v : QualityValidator) (image : Image) : Bool × ℚ :=
  (decide (v.sharpness_threshold ≤ image.lapVariance), image.lapVariance)

/-- Embeds `QualityValidator.validate_lighting`: valid iff the mean L-channel
brightness lies in `[30, 220]` and the contrast is at least `15`; the score
averages a brightness-centering term (optimum 125) and a contrast term. -/
def validate_lighting (v : QualityValidator) (image : Image) : Bool × ℚ :=
  let brightness_score := 1 - |image.meanBrightness - 125| / 125
  let contrast_score := min (image.contrast / 50) 1
  let lighting_score := (brightness_score + contrast_score) / 2
  (decide (30 ≤ image.meanBrightness ∧ image.meanBrightness ≤ 220 ∧
    15 ≤ image.contrast), lighting_score)

/-- Embeds `QualityValidator.validate_angle`: `|angle| <= threshold`, defaulting the
threshold to the configured one. -/
def validate_angle (v : QualityValidator) (angle : ℚ) (threshold : Option ℚ) : Bool :=
  decide (|angle| ≤ threshold.getD v.angle_threshold)

/-- Embeds `QualityValidator.validate_face_size`: the smaller box dimension must be
at least the minimum size. -/
def validate_face_size (v : QualityValidator) (face_location : FaceLocation)
    (min_size : Option ℤ) : Bool :=
  decide (min_size.getD v.min_face_size ≤ min face_location.width face_location.height)

/-- The issue string appended on a sharpness failure (the source formats the
score with two decimals; the embedding prints the exact rational). -/
def sharpnessIssue (score : ℚ) : String :=
  "Low sharpness (score: " ++ toString score ++ ")"

/-- The issue string appended on a lighting failure. -/
def lightingIssue (score : ℚ) : String :=
  "Poor lighting (score: " ++ toString score ++ ")"

/-- The issue string appended on an angle failure. -/
def angleIssue (angle : ℚ) : String :=
  "Face angle too large (" ++ toString angle ++ " deg)"

/-- The issue string appended on a size failure. -/
def sizeIssue (min_face_size : ℤ) : String :=
  "Face too small (min: " ++ toString min_face_size ++ "px)"

/-- Embeds `QualityValidator.validate_all`: runs the four checks in source order
(sharpness, lighting, angle, size), appending one issue per failure.  The
angle check uses the supplied angle when present, otherwise an angle derived
from the landmarks when present, otherwise it is skipped with
`angle_valid = True`. -/
def validate_all (v : QualityValidator) (image : Image)
    (face_location : FaceLocation) (landmarks : Option Landmarks)
    (angle : Option ℚ) : QualityReport :=
  let sharp := validate_sharpness v image
  let issues1 : List String := if sharp.1 then [] else [sharpnessIssue sharp.2]
  let lighting := validate_lighting v image
  let issues2 := issues1 ++ (if lighting.1 then [] else [lightingIssue lighting.2])
  let angleState : ℚ × Bool × List String :=
    match angle with
    | some a =>
      (a, validate_angle v a none,
        issues2 ++ (if validate_angle v a none then [] else [angleIssue a]))
    | none =>
      match landmarks with
      | some lm =>
        let a := get_face_angle lm
        (a, validate_angle v a none,
          issues2 ++ (if validate_angle v a none then [] else [angleIssue a]))
      | none => (0, true, issues2)
  let size_ok := validate_face_size v face_location none
  let issues3 := angleState.2.2 ++ (if size_ok then [] else [sizeIssue v.min_face_size])
  { is_valid := sharp.1 && lighting.1 && angleState.2.1 && size_ok
    sharpness_score := sharp.2
    lighting_score := lighting.2
    angle := angleState.1
    angle_valid := angleState.2.1
    face_size_valid := size_ok
    issues := issues3 }

/-- Claim C4: `validate_all` reports `is_valid = false` exactly when at least
one of the four sub-checks fails, and the issues list has one entry per
failed check, the angle check contributing nothing when neither an angle nor
landmarks are supplied. -/
theorem validate_all_aggregation (v : QualityValidator) (image : Image)
    (face_location : FaceLocation) (landmarks : Option Landmarks)
    (angle : Option ℚ) :
    ((validate_all v image face_location landmarks angle).is_valid = false ↔
        ((validate_sharpness v image).1 = false ∨
          (validate_lighting v image).1 = false ∨
          (validate_all v image face_location landmarks angle).angle_valid = false ∨
          (validate_all v image face_location landmarks angle).face_size_valid = false)) ∧
      (validate_all v image face_location landmarks angle).issues.length =
        ((if (validate_sharpness v image).1 then 0 else 1) +
          (if (validate_lighting v image).1 then 0 else 1) +
          (if angle = none ∧ landmarks = none then 0
            else if (validate_all v image face_location landmarks angle).angle_valid
            then 0 else 1) +
          (if (validate_all v image face_location landmarks angle).face_size_valid
            then 0 else 1)) := by
  rcases angle with _ | a
  · rcases landmarks with _ | lm
    · cases hs : (validate_sharpness v image).1 <;>
        cases hl : (validate_lighting v image).1 <;>
        cases hz : validate_face_size v face_location none <;>
          simp [validate_all, hs, hl, hz]
    · cases hs : (validate_sharpness v image).1 <;>
        cases hl : (validate_lighting v image).1 <;>
        cases hz : validate_face_size v face_location none <;>
        cases ha : validate_angle v (get_face_angle lm) none <;>
          simp [validate_all, hs, hl, hz, ha]
  · cases hs : (validate_sharpness v image).1 <;>
      cases hl : (validate_lighting v image).1 <;>
      cases hz : validate_face_size v face_location none <;>
      cases ha : validate_angle v a none <;>
        simp [validate_all, hs, hl, hz, ha]

/-- Witness for C4 at a concrete input: a blurry too-small face with the
angle supplied and valid has exactly two issues and is invalid. -/
theorem validate_all_aggregation_w :
    (validate_all defaultValidator ⟨50, 125, 20⟩ ⟨0, 50, 50, 0⟩ none (some 0)).issues.length =
        2 ∧
      (validate_all defaultValidator ⟨50, 125, 20⟩ ⟨0, 50, 50, 0⟩ none
        (some 0)).is_valid = false := by
  constructor
  · rw [(validate_all_aggregation defaultValidator ⟨50, 125, 20⟩ ⟨0, 50, 50, 0⟩
      none (some 0)).2]
    decide
  · rw [(validate_all_aggregation defaultValidator ⟨50, 125, 20⟩ ⟨0, 50, 50, 0⟩
      none (some 0)).1]
    decide

/-- Claim C7: With neither an angle nor landmarks supplied, the angle check is
skipped and treated as valid, and the treatment is recorded in the returned
report: `angle_valid` is explicitly `true` (overriding the report's `false`
default), the reported angle stays `0`, no angle issue is appended, and the
overall verdict reduces to the conjunction of the other three checks. -/
theorem validate_all_angle_skip (v : QualityValidator) (image : Image)
    (face_location : FaceLocation) :
    (validate_all v image face_location none none).angle_valid = true ∧
      (validate_all v image face_location none none).angle = 0 ∧
      (validate_all v image face_location none none).issues.length =
        ((if (validate_sharpness v image).1 then 0 else 1) +
          (if (validate_lighting v image).1 then 0 else 1) +
          (if validate_face_size v face_location none then 0 else 1)) ∧
      (validate_all v image face_location none none).is_valid =
        ((validate_sharpness v image).1 && (validate_lighting v image).1 &&
          validate_face_size v face_location none) := by
  cases hs : (validate_sharpness v image).1 <;>
    cases hl : (validate_lighting v image).1 <;>
    cases hz : validate_face_size v face_location none <;>
      simp [validate_all, hs, hl, hz]

/-! ### Descriptor cache (src/core/identification.py, `load_descriptors_cache`) -/

/-- A stored biometric template row.  `descriptor` is `none` when the stored
data cannot be parsed into a vector (the source's `np.array` call raising, in
which case the row is skipped with a warning). -/
structure Template where
  id : ℕ
  user_id : ℤ
  descriptor : Option Descriptor
deriving DecidableEq

/-- The parse loop of `load_descriptors_cache`: each template that parses
contributes a `(user_id, descriptor)` cache entry, malformed rows are
skipped. -/
def parsedEntries (templates : List Template) : List (ℤ × Descriptor) :=
  templates.filterMap fun t => t.descriptor.map fun d => (t.user_id, d)

/-- The mutable cache fields of `FaceIdentification`:
`_descriptors_cache` and `_cache_timestamp` (the timestamp in seconds). -/
structure CacheState where
  descriptors : Option (List (ℤ × Descriptor))
  timestamp : Option ℚ
deriving DecidableEq

/-- Embeds `FaceIdentification.load_descriptors_cache`: with `force_reload = false`,
an existing snapshot younger than 300 seconds is returned as-is (its length,
with the state untouched); otherwise the repository's templates are parsed
into a fresh snapshot which replaces the old one, stamped with the current
time.  `now` is the current wall-clock time in seconds and `templates` the
repository contents. -/
def load_descriptors_cache (templates : List Template) (now : ℚ)
    (force_reload : Bool) (st : CacheState) : ℕ × CacheState :=
  let hit : Option ℕ :=
    match force_reload, st.descriptors, st.timestamp with
    | false, some c, some ts => if now - ts < 300 then some c.length else none
    | _, _, _ => none
  match hit with
  | some n => (n, st)
  | none =>
    let descriptors := parsedEntries templates
    (descriptors.length, { descriptors := some descriptors, timestamp := some now })

/-- Claim C5: With a snapshot younger than the 300-second TTL, a non-forced
reload returns the existing snapshot's count and leaves the state untouched;
its result is independent of the repository contents (no repository query);
two such calls within the TTL window return the same count.  After TTL
expiry, or with `force_reload = true`, the repository is parsed again and the
snapshot replaced. -/
theorem cache_ttl_reload (templates templates2 : List Template)
    (now now2 now3 now4 : ℚ) (ts : ℚ) (c : List (ℤ × Descriptor))
    (st st2 : CacheState)
    (hc : st.descriptors = some c) (hts : st.timestamp = some ts)
    (h1 : now - ts < 300) (h2 : now2 - ts < 300) (h3 : 300 ≤ now3 - ts) :
    load_descriptors_cache templates now false st = (c.length, st) ∧
      (load_descriptors_cache templates now false st).1 =
        (load_descriptors_cache templates2 now false st).1 ∧
      (load_descriptors_cache templates now false st).1 =
        (load_descriptors_cache templates now2 false st).1 ∧
      load_descriptors_cache templates now3 false st =
        ((parsedEntries templates).length,
          { descriptors := some (parsedEntries templates), timestamp := some now3 }) ∧
      load_descriptors_cache templates now4 true st2 =
        ((parsedEntries templates).length,
          { descriptors := some (parsedEntries templates), timestamp := some now4 }) := by
  refine ⟨?_, ?_, ?_, ?_, ?_⟩
  · simp [load_descriptors_cache, hc, hts, h1]
  · simp [load_descriptors_cache, hc, hts, h1]
  · simp [load_descriptors_cache, hc, hts, h1, h2]
  · simp [load_descriptors_cache, hc, hts, not_lt.mpr h3]
  · simp [load_descriptors_cache]

/-- Witness for C5 at concrete times and repository contents. -/
theorem cache_ttl_reload_w :
    load_descriptors_cache [⟨1, 7, some [0]⟩] 1100 false
        ⟨some [(7, [0]), (7, [1])], some 1000⟩ =
      (2, ⟨some [(7, [0]), (7, [1])], some 1000⟩) ∧
      load_descriptors_cache [⟨1, 7, some [0]⟩] 1300 false
          ⟨some [(7, [0]), (7, [1])], some 1000⟩ =
        (1, ⟨some [(7, [0])], some 1300⟩) := by
  have h := cache_ttl_reload [⟨1, 7, some [0]⟩] [] 1100 1200 1300 1400 1000
    [(7, [0]), (7, [1])] ⟨some [(7, [0]), (7, [1])], some 1000⟩
    ⟨none, none⟩ rfl rfl (by norm_num) (by norm_num) (by norm_num)
  refine ⟨h.1, ?_⟩
  have h4 := h.2.2.2.1
  rw [h4]
  decide

/-! ### Per-face identification (src/core/identification.py, `_identify_face`) -/

/-- A user row as read back by `UserRepository.get_by_id`. -/
structure UserRow where
  id : ℤ
  name : String
  surname : String
deriving DecidableEq

/-- Embeds `UserRepository.get_by_id`: the first row with the requested primary
key, if any. -/
def get_user_by_id (users : List UserRow) (user_id : ℤ) : Option UserRow :=
  users.find? fun u => u.id = user_id

/-- An access-log row as created by `AccessLogRepository.create` (the
wall-clock timestamp column is omitted). -/
structure AccessLogEntry where
  user_id : Option ℤ
  access_type : String
  result : String
  confidence : Option ℚ
deriving DecidableEq

/-- Embeds `IdentificationResult` (the wall-clock timestamp field is omitted). -/
structure IdentificationResult where
  user_id : Option ℤ := none
  user_name : Option String := none
  user_surname : Option String := none
  confidence : ℚ := 0
  distance : WithTop ℚ := 0
  success : Bool := false
deriving DecidableEq

/-- Embeds `FaceIdentification._identify_face` for one face: region extraction and
encoding failures return `None` without logging; a cache match is looked up
in the user repository; a found user yields a successful result plus a
success log entry; a missing user, or no match at all, yields `None` plus a
failure log entry with no subject id.  `face_region` is the (possibly
failed) extracted face region and `encode` the external
`FaceEncoder.encode_face` model.  The returned list holds the access-log
rows written during the call. -/
def identify_face (norm : Norm) (threshold : ℚ) (users : List UserRow)
    (descriptors_cache : List (ℤ × Descriptor)) (encode : Image → Option Descriptor)
    (face_region : Option Image) (access_type : String) :
    Option IdentificationResult × List AccessLogEntry :=
  match face_region with
  | none => (none, [])
  | some face_image =>
    match encode face_image with
    | none => (none, [])
    | some descriptor =>
      match identify norm threshold descriptor descriptors_cache with
      | some (user_id, distance) =>
        match user_id.bind (get_user_by_id users) with
        | some user =>
          let conf := matchConfidenceTop distance threshold
          let result : IdentificationResult :=
            { user_id := user_id
              user_name := some user.name
              user_surname := some user.surname
              confidence := conf
              distance := distance
              success := true }
          (some result, [⟨user_id, access_type, "success", some conf⟩])
        | none => (none, [⟨none, access_type, "failure", none⟩])
      | none => (none, [⟨none, access_type, "failure", none⟩])

/-- Claim C10: When the cache match's subject id has no user row in the
repository, the per-face identification emits no result and writes exactly
one access-log entry with no subject id and result `"failure"`. -/
theorem identify_face_missing_user (norm : Norm) (threshold : ℚ)
    (users : List UserRow) (descriptors_cache : List (ℤ × Descriptor))
    (encode : Image → Option Descriptor) (face_image : Image)
    (descriptor : Descriptor) (access_type : String)
    (user_id : Option ℤ) (distance : WithTop ℚ)
    (henc : encode face_image = some descriptor)
    (hmatch : identify norm threshold descriptor descriptors_cache =
      some (user_id, distance))
    (hmissing : user_id.bind (get_user_by_id users) = none) :
    identify_face norm threshold users descriptors_cache encode
        (some face_image) access_type =
      (none, [⟨none, access_type, "failure", none⟩]) := by
  simp only [identify_face, henc, hmatch, hmissing]

/-- Witness for C10: a probe matching cache subject `1` when the user table
is empty. -/
theorem identify_face_missing_user_w :
    identify_face normSq 1 [] [(1, [])] (fun _ => some ([] : Descriptor))
        (some ⟨0, 0, 0⟩) "identification" =
      (none, [⟨none, "identification", "failure", none⟩]) :=
  identify_face_missing_user normSq 1 [] [(1, [])] (fun _ => some ([] : Descriptor))
    ⟨0, 0, 0⟩ ([] : Descriptor) "identification" (some 1) ((normSq [] [] : ℚ) : WithTop ℚ)
    rfl (by decide) (by decide)

/-! ### Enrollment (src/core/registration.py) -/

/-- From config.py: `MIN_PHOTOS_FOR_REGISTRATION = 5`. -/
def MIN_PHOTOS_FOR_REGISTRATION : ℕ := 5

/-- From config.py: `MAX_PHOTOS_FOR_REGISTRATION = 10`. -/
def MAX_PHOTOS_FOR_REGISTRATION : ℕ := 10

/-- One successfully read camera frame, represented by what the external
collaborators yield for it: the detector's face boxes, the optional landmark
set, the extracted face region (`ImageProcessor.extract_face_region`, `none`
when the crop is empty) and the encoder's descriptor (`none` on encoding
failure). -/
structure Frame where
  faces : List FaceLocation
  landmarks : Option Landmarks
  region : Option Image
  descriptor : Option Descriptor
deriving DecidableEq

/-- An accumulated enrollment sample (the photos_data dictionary entries). -/
structure EnrollmentSample where
  frame : Frame
  face_image : Image
  descriptor : Descriptor
  quality_report : QualityReport
  angle : ℚ
deriving DecidableEq

/-- The per-frame body of the `_capture_photos` loop (registration.py lines
183-260): require exactly one detected face, derive the angle from the
landmarks when present (else `0.0`), require a non-empty extracted region,
require the quality gate to pass, require a descriptor; every failed stage
`continue`s, i.e. yields no sample. -/
def process_frame (v : QualityValidator) (frame : Frame) : Option EnrollmentSample :=
  match frame.faces with
  | [] => none
  | _ :: _ :: _ => none
  | [face_location] =>
    let angle : ℚ :=
      match frame.landmarks with
      | some lm => get_face_angle lm
      | none => 0
    match frame.region with
    | none => none
    | some face_image =>
      let report := validate_all v face_image face_location frame.landmarks (some angle)
      if report.is_valid then
        match frame.descriptor with
        | none => none
        | some d => some ⟨frame, face_image, d, report, angle⟩
      else none

/-- Embeds `UserRegistration._capture_photos`: the frame source is a list of reads
(`none` = failed read; once the list is exhausted every further read fails,
so the consecutive-failure cap ends the loop with the photos gathered so
far).  The loop runs while fewer than `MAX_PHOTOS_FOR_REGISTRATION` samples
are held: a failed read is aborted after 10 consecutive failures, a
successful read resets the failure counter, only every 3rd successful read
is processed, and a processed frame that passes every stage appends one
sample. -/
def capture_photos (v : QualityValidator) :
    List (Option Frame) → ℕ → ℕ → List EnrollmentSample → List EnrollmentSample
  | [], _, _, photos => photos
  | f :: rest, frame_count, consecutive_failures, photos =>
    if photos.length < MAX_PHOTOS_FOR_REGISTRATION then
      match f with
      | none =>
        if 10 ≤ consecutive_failures + 1 then photos
        else capture_photos v rest frame_count (consecutive_failures + 1) photos
      | some frame =>
        if (frame_count + 1) % 3 ≠ 0 then capture_photos v rest (frame_count + 1) 0 photos
        else
          match process_frame v frame with
          | none => capture_photos v rest (frame_count + 1) 0 photos
          | some sample => capture_photos v rest (frame_count + 1) 0 (photos ++ [sample])
    else photos

/-- The capture loop never grows the sample list beyond the cap it starts
under. -/
lemma capture_photos_le (v : QualityValidator) :
    ∀ (frames : List (Option Frame)) (fc cf : ℕ) (photos : List EnrollmentSample),
      photos.length ≤ MAX_PHOTOS_FOR_REGISTRATION →
      (capture_photos v frames fc cf photos).length ≤ MAX_PHOTOS_FOR_REGISTRATION := by
  intro frames
  induction frames with
  | nil =>
    intro fc cf photos h
    simpa [capture_photos] using h
  | cons f rest ih =>
    intro fc cf photos h
    show (if photos.length < MAX_PHOTOS_FOR_REGISTRATION then
        match f with
        | none =>
          if 10 ≤ cf + 1 then photos
          else capture_photos v rest fc (cf + 1) photos
        | some frame =>
          if (fc + 1) % 3 ≠ 0 then capture_photos v rest (fc + 1) 0 photos
          else
            match process_frame v frame with
            | none => capture_photos v rest (fc + 1) 0 photos
            | some sample => capture_photos v rest (fc + 1) 0 (photos ++ [sample])
      else photos).length ≤ MAX_PHOTOS_FOR_REGISTRATION
    by_cases hlen : photos.length < MAX_PHOTOS_FOR_REGISTRATION
    · rw [if_pos hlen]
      cases f with
      | none =>
        show (if 10 ≤ cf + 1 then photos
            else capture_photos v rest fc (cf + 1) photos).length ≤
          MAX_PHOTOS_FOR_REGISTRATION
        by_cases hcf : 10 ≤ cf + 1
        · rw [if_pos hcf]; exact h
        · rw [if_neg hcf]; exact ih _ _ _ h
      | some frame =>
        show (if (fc + 1) % 3 ≠ 0 then capture_photos v rest (fc + 1) 0 photos
            else
              match process_frame v frame with
              | none => capture_photos v rest (fc + 1) 0 photos
              | some sample =>
                capture_photos v rest (fc + 1) 0 (photos ++ [sample])).length ≤
          MAX_PHOTOS_FOR_REGISTRATION
        by_cases hskip : (fc + 1) % 3 ≠ 0
        · rw [if_pos hskip]; exact ih _ _ _ h
        · rw [if_neg hskip]
          cases hp : process_frame v frame with
          | none => simp only [hp]; exact ih _ _ _ h
          | some sample =>
            simp only [hp]
            refine ih _ _ _ ?_
            rw [List.length_append, List.length_singleton]
            exact hlen
    · rw [if_neg hlen]; exact h

/-- A user row as committed by enrollment. -/
structure DBUserRow where
  id : ℤ
  name : String
  surname : String
  photo_path : Option String
  access_level : ℤ
deriving DecidableEq

/-- The durable repository state touched by enrollment: user rows and
template rows `(user_id, descriptor)`. -/
structure DB where
  users : List DBUserRow
  templates : List (ℤ × Descriptor)
deriving DecidableEq

/-- The primary key the flush assigns to the new user row (an autoincrement
column, modelled as one more than the number of existing rows). -/
def next_user_id (db : DB) : ℤ := (db.users.length : ℤ) + 1

/-- Embeds `RegistrationResult` with its `__init__` defaults. -/
structure RegistrationResult where
  success : Bool := false
  user_id : Option ℤ := none
  photos_captured : ℕ := 0
  templates_created : ℕ := 0
  photo_path : Option String := none
  issues : List String := []
  message : String := ""
deriving DecidableEq

/-- The reference-photo path written by `_save_reference_photo` (the
wall-clock timestamp component of the filename is omitted). -/
def referencePhotoPath (name surname : String) : String :=
  name ++ "_" ++ surname ++ ".jpg"

/-- The diagnostic produced when fewer than the minimum number of photos
were captured (registration.py line 76). -/
def shortfallMessage (got : ℕ) : String :=
  "Failed to capture enough photos. Got " ++ toString got ++ ", need " ++
    toString MIN_PHOTOS_FOR_REGISTRATION

/-- Embeds `UserRegistration.register_user`.  `frames` feeds `_capture_photos`.
`dbFail` injects a persistence failure: `some (k, e)` means the k-th
repository/disk operation of the commit phase raises with error text `e`,
where operation `0` is the reference-photo save, `1` the user insert+flush,
`2 .. n+1` the `n` template inserts and `n+2` the commit.  On such a
failure the session is rolled back (the durable state is returned
unchanged), the inner handler records `"Database error: e"` and re-raises,
and the outer handler records `"Registration error: e"` and the failure
message; `user_id`/`photo_path` are only populated if the failure happened
after the flush assigned them.  With no failure the user row and one
template row per captured photo are committed together. -/
def register_user (v : QualityValidator) (db : DB) (frames : List (Option Frame))
    (name surname : String) (access_level : ℤ) (dbFail : Option (ℕ × String)) :
    RegistrationResult × DB :=
  let photos := capture_photos v frames 0 0 []
  if photos.length < MIN_PHOTOS_FOR_REGISTRATION then
    ({ success := false
       photos_captured := 0
       issues := [shortfallMessage photos.length]
       message := shortfallMessage photos.length }, db)
  else
    let uid := next_user_id db
    let path := referencePhotoPath name surname
    let committed : RegistrationResult × DB :=
      ({ success := true
         user_id := some uid
         photos_captured := photos.length
         templates_created := photos.length
         photo_path := some path
         issues := []
         message := "User registered successfully with " ++
           toString photos.length ++ " templates" },
       { users := db.users ++ [⟨uid, name, surname, some path, access_level⟩]
         templates := db.templates ++ photos.map fun p => (uid, p.descriptor) })
    match dbFail with
    | some fail =>
      if fail.1 ≤ photos.length + 2 then
        ({ success := false
           user_id := if 2 ≤ fail.1 then some uid else none
           photos_captured := photos.length
           templates_created := 0
           photo_path := if 2 ≤ fail.1 then some path else none
           issues := ["Database error: " ++ fail.2, "Registration error: " ++ fail.2]
           message := "Registration failed: " ++ fail.2 }, db)
      else committed
    | none => committed

/-- Claim C3: The enrollment capture loop accumulates at most
`MAX_PHOTOS_FOR_REGISTRATION = 10` samples no matter how many valid frames
the source offers; registration reports success only when at least
`MIN_PHOTOS_FOR_REGISTRATION = 5` quality-valid samples were accumulated;
and a run that gathered exactly `4` samples ends as a failure whose
diagnostic message cites the shortfall of 4 against the minimum of 5. -/
theorem enrollment_sample_bounds (v : QualityValidator) (db : DB)
    (frames : List (Option Frame)) (name surname : String) (access_level : ℤ)
    (dbFail : Option (ℕ × String)) :
    (capture_photos v frames 0 0 []).length ≤ MAX_PHOTOS_FOR_REGISTRATION ∧
      ((register_user v db frames name surname access_level dbFail).1.success = true →
        MIN_PHOTOS_FOR_REGISTRATION ≤ (capture_photos v frames 0 0 []).length) ∧
      ((capture_photos v frames 0 0 []).length = 4 →
        (register_user v db frames name surname access_level dbFail).1.success = false ∧
          (register_user v db frames name surname access_level dbFail).1.message =
            "Failed to capture enough photos. Got 4, need 5") := by
  refine ⟨capture_photos_le v frames 0 0 [] (by simp), ?_, ?_⟩
  · intro hs
    by_contra hlt
    rw [not_le] at hlt
    simp only [register_user, if_pos hlt] at hs
    exact absurd hs (by simp)
  · intro h4
    have hlt : (capture_photos v frames 0 0 []).length <
        MIN_PHOTOS_FOR_REGISTRATION := by
      rw [h4]; norm_num [MIN_PHOTOS_FOR_REGISTRATION]
    constructor
    · simp only [register_user, if_pos hlt]
    · simp only [register_user, if_pos hlt, h4]
      rfl

/-- A sample image passing every quality check of the default
configuration. -/
def sampleImage : Image := ⟨150, 125, 20⟩

/-- A bounding box passing the size check. -/
def sampleLoc : FaceLocation := ⟨0, 200, 200, 0⟩

/-- A frame with exactly one valid, encodable face. -/
def goodFrame : Frame := ⟨[sampleLoc], none, some sampleImage, some []⟩

/-- Witness for C3: twelve consecutive valid reads admit every 3rd frame,
yielding exactly 4 samples, and the registration fails citing 4 against the
minimum of 5. -/
theorem enrollment_sample_bounds_w :
    (capture_photos defaultValidator (List.replicate 12 (some goodFrame)) 0 0 []).length = 4 ∧
      (register_user defaultValidator ⟨[], []⟩ (List.replicate 12 (some goodFrame))
          "Ann" "Lee" 0 none).1.message =
        "Failed to capture enough photos. Got 4, need 5" := by
  have h4 : (capture_photos defaultValidator
      (List.replicate 12 (some goodFrame)) 0 0 []).length = 4 := by decide
  exact ⟨h4, ((enrollment_sample_bounds defaultValidator ⟨[], []⟩
    (List.replicate 12 (some goodFrame)) "Ann" "Lee" 0 none).2.2 h4).2⟩

/-- Claim C6: When any repository/disk write of the commit phase fails, the
whole enrollment transaction is rolled back — the durable state is exactly
what it was before, so no partial template set is committed — and the
registration result of that attempt is a failure carrying the diagnostic. -/
theorem enrollment_rollback (v : QualityValidator) (db : DB)
    (frames : List (Option Frame)) (name surname : String) (access_level : ℤ)
    (k : ℕ) (e : String)
    (h5 : MIN_PHOTOS_FOR_REGISTRATION ≤ (capture_photos v frames 0 0 []).length)
    (hk : k ≤ (capture_photos v frames 0 0 []).length + 2) :
    (register_user v db frames name surname access_level (some (k, e))).2 = db ∧
      (register_user v db frames name surname access_level (some (k, e))).1.success =
        false ∧
      (register_user v db frames name surname access_level (some (k, e))).1.issues =
        ["Database error: " ++ e, "Registration error: " ++ e] ∧
      (register_user v db frames name surname access_level (some (k, e))).1.message =
        "Registration failed: " ++ e := by
  simp only [register_user, if_neg (not_lt.mpr h5), if_pos hk]
  exact ⟨trivial, trivial, trivial, trivial⟩

/-- Witness for C6: fifteen valid reads yield 5 samples; a failure injected
at the user insert rolls the empty database back to empty and fails the
attempt. -/
theorem enrollment_rollback_w :
    (register_user defaultValidator ⟨[], []⟩ (List.replicate 15 (some goodFrame))
        "Ann" "Lee" 0 (some (1, "disk full"))).2 = ⟨[], []⟩ ∧
      (register_user defaultValidator ⟨[], []⟩ (List.replicate 15 (some goodFrame))
          "Ann" "Lee" 0 (some (1, "disk full"))).1.success = false :=
  have h := enrollment_rollback defaultValidator ⟨[], []⟩
    (List.replicate 15 (some goodFrame)) "Ann" "Lee" 0 1 "disk full"
    (by decide) (by decide)
  ⟨h.1, h.2.1⟩

end BioFace
